import Mathlib

/-
Verification of the authenticated streaming completion client in
`codex-rs/simple-auth-test/src/main.rs`.

The embedding below translates the core of `main` into Lean:
  * Rust `&str` operations used by the SSE framing code (`split`, `lines`,
    `trim`, `starts_with`, `trim_start_matches`) are modelled on `List Char`
    with fuel-based recursion, wrapped for `String`.
  * JSON values produced by `serde_json` are modelled by an inductive `Json`;
    the `serde` derive-based deserializers of the reply/refresh structures are
    translated field by field.  The actual text-to-`Json` parser, the base64url
    decoder, and the HTTP transport are external collaborators and appear as
    components of an environment record (`SessionEnv`).
  * The retry loop of the session path (`loop` at main.rs:223-424) is embedded
    by unrolling on the `refreshed` flag: every `continue` in the source is
    guarded by `!refreshed` and sets `refreshed = true`, so the loop body runs
    at most twice; `sessionBody` is the body, parameterised by the
    continuation used at the `continue` sites, and `runSession` chains two
    copies.  Results carry counters for the number of backend requests and of
    refresh-endpoint calls made.
-/

namespace SimpleAuth

/-! ## Rust string primitives, modelled on `List Char` -/

/-- Fuel-based worker for Rust `str::split(sep)` with a non-empty separator:
splits on non-overlapping occurrences, left to right, keeping empty pieces. -/
def chSplitGo (sep : List Char) : Nat → List Char → List Char → List (List Char)
  | _, [], acc => [acc.reverse]
  | 0, s, acc => [acc.reverse ++ s]
  | fuel + 1, c :: rest, acc =>
    if sep.isPrefixOf (c :: rest) then
      acc.reverse :: chSplitGo sep fuel ((c :: rest).drop sep.length) []
    else
      chSplitGo sep fuel rest (c :: acc)

/-- Rust `str::split(sep)` for a non-empty separator. -/
def chSplitOn (sep s : List Char) : List (List Char) :=
  chSplitGo sep s.length s []

/-- Remove one trailing carriage return, as Rust `lines()` does to each
newline-terminated line. -/
def chStripCr (l : List Char) : List Char :=
  if l.getLast? = some '\r' then l.dropLast else l

/-- Worker for Rust `str::lines()`: all pieces but the last were
newline-terminated, so they lose one trailing `'\r'`; a final empty piece
(string ended with a newline) is dropped. -/
def chLinesGo : List (List Char) → List (List Char)
  | [] => []
  | [last] => if last = [] then [] else [last]
  | p :: rest => chStripCr p :: chLinesGo rest

/-- Rust `str::lines()`. -/
def chLines (s : List Char) : List (List Char) :=
  chLinesGo (chSplitOn ['\n'] s)

/-- Rust `str::trim()` (on the ASCII whitespace relevant here). -/
def chTrim (s : List Char) : List Char :=
  ((s.dropWhile Char.isWhitespace).reverse.dropWhile Char.isWhitespace).reverse

/-- Fuel-based worker for Rust `str::trim_start_matches(pat)`: repeatedly
strips the pattern off the front. -/
def chStripAllGo (pat : List Char) : Nat → List Char → List Char
  | 0, s => s
  | fuel + 1, s =>
    if !pat.isEmpty && pat.isPrefixOf s then
      chStripAllGo pat fuel (s.drop pat.length)
    else s

/-- Rust `str::split(sep)` lifted to `String`. -/
def rsSplit (s sep : String) : List String :=
  (chSplitOn sep.data s.data).map String.mk

/-- Rust `str::lines()` lifted to `String`. -/
def rsLines (s : String) : List String :=
  (chLines s.data).map String.mk

/-- Rust `str::trim()` lifted to `String`. -/
def rsTrim (s : String) : String :=
  String.mk (chTrim s.data)

/-- Rust `str::starts_with(pat)` lifted to `String`. -/
def rsStartsWith (s pat : String) : Bool :=
  pat.data.isPrefixOf s.data

/-- Rust `str::trim_start_matches(pat)` lifted to `String`. -/
def rsTrimStartMatches (s pat : String) : String :=
  String.mk (chStripAllGo pat.data s.data.length s.data)

/-- The guard `!value.trim().is_empty()` used in the credential filters
(main.rs:142, 227, 232, 329). -/
def nonBlank (t : String) : Bool :=
  !(rsTrim t == "")

/-! ## JSON values (the image of `serde_json::Value`) -/

/-- A parsed JSON document, as produced by `serde_json`. -/
inductive Json where
  | null : Json
  | bool (b : Bool) : Json
  | num (n : Int) : Json
  | str (s : String) : Json
  | arr (elems : List Json) : Json
  | obj (fields : List (String × Json)) : Json

/-- First binding for a key in an object's field list (objects parsed by
`serde_json` have unique keys). -/
def lookupField (k : String) : List (String × Json) → Option Json
  | [] => none
  | (k', v) :: rest => if k' = k then some v else lookupField k rest

/-- `Value::get(key)`: `none` on non-objects and missing keys. -/
def Json.getField (j : Json) (k : String) : Option Json :=
  match j with
  | .obj fields => lookupField k fields
  | _ => none

/-- `Value::as_str()`. -/
def Json.asStr (j : Json) : Option String :=
  match j with
  | .str s => some s
  | _ => none

/-! ## Data model (main.rs:24-112) -/

/-- `TokenBundle` (main.rs:32-39). -/
structure TokenBundle where
  id_token : String
  access_token : Option String
  refresh_token : Option String
deriving DecidableEq

/-- `AuthJson` (main.rs:24-30). -/
structure AuthJson where
  openai_api_key : Option String
  tokens : Option TokenBundle

/-- `Credential` (main.rs:41-45). -/
inductive Credential where
  | apiKey (key : String)
  | chatGpt (tokens : TokenBundle)
deriving DecidableEq

/-- `OutputContent` (main.rs:81-86); `kind` is the serde-renamed `type`. -/
structure OutputContent where
  kind : String
  text : Option String
deriving DecidableEq

/-- `OutputMessage` (main.rs:74-79). -/
structure OutputMessage where
  role : Option String
  content : List OutputContent
deriving DecidableEq

/-- `ResponsesReply` (main.rs:69-72). -/
structure ResponsesReply where
  output : List OutputMessage
deriving DecidableEq

/-- `RefreshResponse` (main.rs:96-101). -/
structure RefreshResponse where
  id_token : String
  access_token : Option String
  refresh_token : Option String
deriving DecidableEq

/-- The error outcomes of `main`, one constructor per distinct `anyhow!` /
`?` site of the embedded core. -/
inductive ErrorKind where
  | unauthorized
  | apiError (status : Nat) (body : String)
  | apiJsonError
  | noOutputText
  | noSessionTokens
  | noUsableTokens
  | noRefreshToken
  | noAccessToken
  | refreshFailed (status : Nat) (body : String)
  | refreshParseError
  | malformedToken
  | tokenDecodeError
  | claimsParseError
  | missingAccountClaim
  | refreshRejected
  | backendError (status : Nat) (body : String)
  | streamParseError
  | completedParseError
  | emptyStreamResult
deriving DecidableEq

/-! ## serde deserializers for the reply structures -/

/-- serde extraction of an `Option<String>` field: absent or `null` is
`none`, a string is `some`, any other value is a type error. -/
def deserOptString (j : Json) (k : String) : Option (Option String) :=
  match j.getField k with
  | none => some none
  | some .null => some none
  | some (.str s) => some (some s)
  | some _ => none

/-- serde for `OutputContent`: required string field `type`, optional
string field `text`. -/
def deserOutputContent (j : Json) : Option OutputContent :=
  match j with
  | .obj _ =>
    match j.getField "type" with
    | some (.str kind) =>
      match deserOptString j "text" with
      | some text => some { kind := kind, text := text }
      | none => none
    | _ => none
  | _ => none

/-- serde for `OutputMessage`: optional string `role`, required array
`content` of `OutputContent`. -/
def deserOutputMessage (j : Json) : Option OutputMessage :=
  match j with
  | .obj _ =>
    match deserOptString j "role", j.getField "content" with
    | some role, some (.arr elems) =>
      match elems.mapM deserOutputContent with
      | some content => some { role := role, content := content }
      | none => none
    | _, _ => none
  | _ => none

/-- serde for `ResponsesReply`: required array `output` of `OutputMessage`. -/
def deserReply (j : Json) : Option ResponsesReply :=
  match j with
  | .obj _ =>
    match j.getField "output" with
    | some (.arr elems) =>
      (elems.mapM deserOutputMessage).map fun output => { output := output }
    | _ => none
  | _ => none

/-- serde for `RefreshResponse`: required string `id_token`, optional
strings `access_token` and `refresh_token`. -/
def deserRefreshResponse (j : Json) : Option RefreshResponse :=
  match j with
  | .obj _ =>
    match j.getField "id_token", deserOptString j "access_token",
        deserOptString j "refresh_token" with
    | some (.str idTok), some access, some refresh =>
      some { id_token := idTok, access_token := access, refresh_token := refresh }
    | _, _, _ => none
  | _ => none

/-- serde for `AuthClaims` (main.rs:109-112): optional string
`chatgpt_account_id`. -/
def deserAuthClaims (j : Json) : Option (Option String) :=
  match j with
  | .obj _ => deserOptString j "chatgpt_account_id"
  | _ => none

/-- serde for `IdClaims` (main.rs:103-107): optional field
`https://api.openai.com/auth` holding `AuthClaims`. -/
def deserIdClaims (j : Json) : Option (Option (Option String)) :=
  match j with
  | .obj _ =>
    match j.getField "https://api.openai.com/auth" with
    | none => some none
    | some .null => some none
    | some a => (deserAuthClaims a).map some
  | _ => none

/-! ## Response Decoder -/

/-- The `output_text` extraction, written twice in the source with identical
text (main.rs:208-213 for the API-key reply, main.rs:400-408 for the
`response.completed` fallback): first content piece, in document order, whose
`type` is `output_text` and whose `text` is present. -/
def extractOutputText (reply : ResponsesReply) : Option String :=
  (reply.output.flatMap fun message => message.content).findSome? fun piece =>
    if piece.kind = "output_text" then piece.text else none

/-! ## Token Codec -/

/-- The JWT shape check (main.rs:272-280): three calls of `parts.next()` on
`split('.')`, i.e. the FIRST THREE dot-separated segments, all required
non-empty.  A fourth-or-later segment is never examined. -/
def tokenShape (idToken : String) : Option (String × String × String) :=
  match rsSplit idToken "." with
  | h :: p :: sg :: _ =>
    if h ≠ "" ∧ p ≠ "" ∧ sg ≠ "" then some (h, p, sg) else none
  | _ => none

/-- The `chatgpt-account-id` extraction (main.rs:271-289).  `b64` models
`URL_SAFE_NO_PAD.decode` combined with reading the bytes as text, and
`parse` models `serde_json`'s text-to-value parsing; both are external
library collaborators. -/
def extractAccountId (b64 : String → Option String) (parse : String → Option Json)
    (idToken : String) : Except ErrorKind String :=
  match tokenShape idToken with
  | none => .error .malformedToken
  | some (_, payload, _) =>
    match b64 payload with
    | none => .error .tokenDecodeError
    | some payloadText =>
      match parse payloadText with
      | none => .error .claimsParseError
      | some j =>
        match deserIdClaims j with
        | none => .error .claimsParseError
        | some authOpt =>
          match authOpt.join with
          | some accountId => .ok accountId
          | none => .error .missingAccountClaim

/-! ## Stream Decoder -/

/-- SSE framing (main.rs:378-384): split the body into blocks on a blank
line, split blocks into lines, trim, keep `data:`-prefixed lines, strip the
prefix and trim the payload. -/
def dataPayloads (body : String) : List String :=
  ((rsSplit body "\n\n").flatMap rsLines).filterMap fun rawLine =>
    let line := rsTrim rawLine
    if rsStartsWith line "data:" then
      some (rsTrim (rsTrimStartMatches line "data:"))
    else none

/-- One iteration of the event loop (main.rs:385-415), acting on the
accumulator `collected`: skip empty payloads and the `[DONE]` sentinel; a
payload that fails JSON parsing aborts (the `?` at main.rs:389); a delta
event appends its `delta` string; a `response.completed` event is consulted
only while the accumulator is empty, replacing it by the §4.2 extraction of
its embedded reply (a malformed embedded reply aborts, the `?` at
main.rs:399); all other events are skipped. -/
def processPayload (parse : String → Option Json) (collected : String)
    (data : String) : Except ErrorKind String :=
  if data = "" ∨ data = "[DONE]" then .ok collected
  else
    match parse data with
    | none => .error .streamParseError
    | some event =>
      match (event.getField "type").bind Json.asStr with
      | none => .ok collected
      | some etype =>
        if etype = "response.output_text.delta" then
          match (event.getField "delta").bind Json.asStr with
          | some delta => .ok (collected ++ delta)
          | none => .ok collected
        else if etype = "response.completed" ∧ collected = "" then
          match event.getField "response" with
          | some respVal =>
            match deserReply respVal with
            | none => .error .completedParseError
            | some reply =>
              match extractOutputText reply with
              | some text => .ok text
              | none => .ok collected
          | none => .ok collected
        else .ok collected

/-- The stream decode (main.rs:377-423): fold the event loop over all data
payloads starting from an empty accumulator; an empty final accumulator is
the error at main.rs:419-421, otherwise the accumulated text is the answer. -/
def decodeStream (parse : String → Option Json) (body : String) :
    Except ErrorKind String :=
  match (dataPayloads body).foldlM (processPayload parse) "" with
  | .error e => .error e
  | .ok collected =>
    if collected = "" then .error .emptyStreamResult else .ok collected

/-! ## Backend Client and Session Refresher -/

/-- An HTTP outcome delivered by the transport: status code and body text. -/
structure HttpResponse where
  status : Nat
  body : String

/-- `StatusCode::is_success()`: 2xx. -/
def isSuccess (status : Nat) : Bool :=
  200 ≤ status && status ≤ 299

/-- The external collaborators of one invocation: the base64url payload
decoder, the JSON parser, and the HTTP transport.  `refreshes n` is the
outcome of the `n`-th call of the refresh endpoint; `requests n tok` is the
outcome of the `n`-th backend request, sent with bearer token `tok`. -/
structure SessionEnv where
  b64 : String → Option String
  parse : String → Option Json
  refreshes : Nat → HttpResponse
  requests : Nat → String → HttpResponse

/-- The merge of a refresh response into the bundle (main.rs:258-260 and
357-359): `id_token` always replaced, `access_token`/`refresh_token` kept
from the old bundle when the response omits them. -/
def applyRefresh (tokens : TokenBundle) (updated : RefreshResponse) : TokenBundle :=
  { id_token := updated.id_token
    access_token := updated.access_token.or tokens.access_token
    refresh_token := updated.refresh_token.or tokens.refresh_token }

/-- The refresh sequence, duplicated verbatim in the source (main.rs:229-261
and 326-360): require a non-blank `refresh_token`, call the token endpoint,
fail on non-2xx, parse the body as a `RefreshResponse`, merge.  Returns the
outcome together with the advanced refresh-call counter (`nRef` counts the
refresh-endpoint calls actually made). -/
def doRefresh (env : SessionEnv) (tokens : TokenBundle) (nRef : Nat) :
    Except ErrorKind TokenBundle × Nat :=
  match tokens.refresh_token.filter nonBlank with
  | none => (.error .noRefreshToken, nRef)
  | some _ =>
    let resp := env.refreshes nRef
    if !isSuccess resp.status then (.error (.refreshFailed resp.status resp.body), nRef + 1)
    else
      match env.parse resp.body with
      | none => (.error .refreshParseError, nRef + 1)
      | some j =>
        match deserRefreshResponse j with
        | none => (.error .refreshParseError, nRef + 1)
        | some updated => (.ok (applyRefresh tokens updated), nRef + 1)

/-- One pass of the session loop body (main.rs:223-424).  `refreshed` is the
flag set by either refresh; `k` is the continuation entered at the two
`continue` sites (main.rs:262 and 361), both of which are guarded by
`!refreshed`.  `nReq`/`nRef` count the backend requests and refresh-endpoint
calls made so far; both are reported alongside the result. -/
def sessionBody (env : SessionEnv) (refreshed : Bool) (tokens : TokenBundle)
    (nReq nRef : Nat)
    (k : TokenBundle → Nat → Nat → Except ErrorKind String × Nat × Nat) :
    Except ErrorKind String × Nat × Nat :=
  match tokens.access_token.filter nonBlank with
  | none =>
    if !refreshed then
      match doRefresh env tokens nRef with
      | (.error e, nRef') => (.error e, nReq, nRef')
      | (.ok tokens', nRef') => k tokens' nReq nRef'
    else (.error .noAccessToken, nReq, nRef)
  | some accessToken =>
    match extractAccountId env.b64 env.parse tokens.id_token with
    | .error e => (.error e, nReq, nRef)
    | .ok _accountId =>
      let resp := env.requests nReq accessToken
      if resp.status = 401 then
        if !refreshed then
          match doRefresh env tokens nRef with
          | (.error e, nRef') => (.error e, nReq + 1, nRef')
          | (.ok tokens', nRef') => k tokens' (nReq + 1) nRef'
        else (.error .refreshRejected, nReq + 1, nRef)
      else if !isSuccess resp.status then
        (.error (.backendError resp.status resp.body), nReq + 1, nRef)
      else
        match decodeStream env.parse resp.body with
        | .error e => (.error e, nReq + 1, nRef)
        | .ok text => (.ok text, nReq + 1, nRef)

/-- Continuation placed after the second pass.  It is dead code: with
`refreshed = true` neither `continue` site of `sessionBody` is reachable
(see `sessionBody_true_k_irrelevant`). -/
def haltRun : TokenBundle → Nat → Nat → Except ErrorKind String × Nat × Nat :=
  fun _ nReq nRef => (.error .refreshRejected, nReq, nRef)

/-- The session-token path of `main` (main.rs:215-425): the loop runs its
body with `refreshed = false`; any `continue` re-runs it with
`refreshed = true`, after which no further iteration is possible. -/
def runSession (env : SessionEnv) (tokens : TokenBundle) :
    Except ErrorKind String × Nat × Nat :=
  sessionBody env false tokens 0 0 fun tokens' nReq nRef =>
    sessionBody env true tokens' nReq nRef haltRun

/-- The API-key path of `main` (main.rs:171-214): a single non-streaming
request; 401 is terminal, other non-2xx is an API error, a 2xx body is
parsed as a `ResponsesReply` and the first `output_text` piece is the
answer.  The counters report: one backend request, zero refresh calls. -/
def runApiKey (env : SessionEnv) (apiKey : String) :
    Except ErrorKind String × Nat × Nat :=
  let resp := env.requests 0 apiKey
  if resp.status = 401 then (.error .unauthorized, 1, 0)
  else if !isSuccess resp.status then (.error (.apiError resp.status resp.body), 1, 0)
  else
    match env.parse resp.body with
    | none => (.error .apiJsonError, 1, 0)
    | some j =>
      match deserReply j with
      | none => (.error .apiJsonError, 1, 0)
      | some reply =>
        match extractOutputText reply with
        | some text => (.ok text, 1, 0)
        | none => (.error .noOutputText, 1, 0)

/-! ## Credential selection -/

/-- The credential choice (main.rs:139-155): a non-blank API key wins;
otherwise a token bundle is accepted when `access_token.is_some()` or
`refresh_token.is_some()` — mere presence, emptiness is NOT checked here. -/
def selectCredential (auth : AuthJson) : Except ErrorKind Credential :=
  match auth.openai_api_key.filter nonBlank with
  | some apiKey => .ok (.apiKey apiKey)
  | none =>
    match auth.tokens with
    | some tokens =>
      if tokens.access_token.isSome || tokens.refresh_token.isSome then
        .ok (.chatGpt tokens)
      else .error .noSessionTokens
    | none => .error .noUsableTokens

/-! ## Concrete test fixtures -/

/-- A `response.output_text.delta` event carrying `s`. -/
def deltaEvent (s : String) : Json :=
  .obj [("type", .str "response.output_text.delta"), ("delta", .str s)]

/-- A structured reply whose single message has one `output_text` piece. -/
def replyJson (s : String) : Json :=
  .obj [("output", .arr [.obj [("role", .str "assistant"),
    ("content", .arr [.obj [("type", .str "output_text"), ("text", .str s)]])]])]

/-- A `response.completed` event embedding `replyJson s`. -/
def completedEvent (s : String) : Json :=
  .obj [("type", .str "response.completed"), ("response", replyJson s)]

/-- The decoded identity-token claims used by the fixtures. -/
def cClaims : Json :=
  .obj [("https://api.openai.com/auth", .obj [("chatgpt_account_id", .str "acct-1")])]

/-- A concrete JSON parser table covering the fixture payloads. -/
def cParse : String → Option Json
  | "D1" => some (deltaEvent "Hel")
  | "D2" => some (deltaEvent "lo")
  | "C0" => some (completedEvent "ignored")
  | "CLAIMS" => some cClaims
  | "REFRESH" => some (.obj [("id_token", .str "h.p.s"), ("access_token", .str "tok2")])
  | _ => none

/-- A concrete base64url decoder table: payload segment `p` decodes to the
claims document. -/
def cB64 : String → Option String :=
  fun payload => if payload = "p" then some "CLAIMS" else none

/-- A bundle with a usable access token and a refresh token. -/
def cTokens : TokenBundle :=
  { id_token := "h.p.s", access_token := some "tok1", refresh_token := some "r1" }

/-- The fixture environment: the first backend request is rejected with 401,
the second succeeds with a two-delta stream; the refresh endpoint always
succeeds, rotating the access token to `tok2`. -/
def cEnv : SessionEnv :=
  { b64 := cB64
    parse := cParse
    refreshes := fun _ => ⟨200, "REFRESH"⟩
    requests := fun n _ => if n = 0 then ⟨401, "denied"⟩ else ⟨200, "data: D1\n\ndata: D2"⟩ }

/-- A reply with a non-`output_text` piece before and a second `output_text`
piece after the winning one. -/
def cReply : ResponsesReply :=
  { output := [
      { role := some "assistant", content := [{ kind := "reasoning", text := some "skip" }] },
      { role := some "assistant"
        content := [{ kind := "output_text", text := some "first" },
                    { kind := "output_text", text := some "second" }] }] }

/-- Bundle with neither access nor refresh token. -/
def cBareTokens : TokenBundle :=
  { id_token := "h.p.s", access_token := none, refresh_token := none }

/-! ## Helper lemmas -/

/-- With `refreshed = true` both `continue` sites are dead: the body's result
does not depend on the continuation. -/
theorem sessionBody_true_k_irrelevant (env : SessionEnv) (tokens : TokenBundle)
    (nReq nRef : Nat)
    (k k' : TokenBundle → Nat → Nat → Except ErrorKind String × Nat × Nat) :
    sessionBody env true tokens nReq nRef k = sessionBody env true tokens nReq nRef k' := by
  unfold sessionBody
  cases h1 : tokens.access_token.filter nonBlank with
  | none => simp
  | some accessToken =>
    cases h2 : extractAccountId env.b64 env.parse tokens.id_token with
    | error e => simp
    | ok acct => simp

theorem doRefresh_noToken (env : SessionEnv) (tokens : TokenBundle) (nRef : Nat)
    (h : tokens.refresh_token.filter nonBlank = none) :
    doRefresh env tokens nRef = (.error .noRefreshToken, nRef) := by
  unfold doRefresh
  rw [h]

theorem doRefresh_counts (env : SessionEnv) (tokens : TokenBundle) (nRef : Nat) :
    (doRefresh env tokens nRef).2 ≤ nRef + 1 := by
  unfold doRefresh
  split
  · simp
  · simp only
    split
    · simp
    · split
      · simp
      · split <;> simp

theorem sessionBody_noAccess (env : SessionEnv) (tokens : TokenBundle) (nReq nRef : Nat)
    (k : TokenBundle → Nat → Nat → Except ErrorKind String × Nat × Nat)
    (hA : tokens.access_token.filter nonBlank = none) :
    sessionBody env false tokens nReq nRef k =
      match doRefresh env tokens nRef with
      | (.error e, nRef') => (.error e, nReq, nRef')
      | (.ok tokens', nRef') => k tokens' nReq nRef' := by
  unfold sessionBody
  rw [hA]
  simp

theorem sessionBody_false_access (env : SessionEnv) (tokens : TokenBundle) (nReq nRef : Nat)
    (k : TokenBundle → Nat → Nat → Except ErrorKind String × Nat × Nat) (a : String)
    (hA : tokens.access_token.filter nonBlank = some a) :
    sessionBody env false tokens nReq nRef k =
      match extractAccountId env.b64 env.parse tokens.id_token with
      | .error e => (.error e, nReq, nRef)
      | .ok _ =>
        if (env.requests nReq a).status = 401 then
          match doRefresh env tokens nRef with
          | (.error e, nRef') => (.error e, nReq + 1, nRef')
          | (.ok tokens', nRef') => k tokens' (nReq + 1) nRef'
        else if !isSuccess (env.requests nReq a).status then
          (.error (.backendError (env.requests nReq a).status (env.requests nReq a).body),
            nReq + 1, nRef)
        else
          match decodeStream env.parse (env.requests nReq a).body with
          | .error e => (.error e, nReq + 1, nRef)
          | .ok text => (.ok text, nReq + 1, nRef) := by
  unfold sessionBody
  rw [hA]
  simp

theorem sessionBody_true_noAccess (env : SessionEnv) (tokens : TokenBundle) (nReq nRef : Nat)
    (k : TokenBundle → Nat → Nat → Except ErrorKind String × Nat × Nat)
    (hA : tokens.access_token.filter nonBlank = none) :
    sessionBody env true tokens nReq nRef k = (.error .noAccessToken, nReq, nRef) := by
  unfold sessionBody
  rw [hA]
  simp

theorem sessionBody_401_refresh (env : SessionEnv) (tokens : TokenBundle) (nReq nRef : Nat)
    (k : TokenBundle → Nat → Nat → Except ErrorKind String × Nat × Nat)
    (a acct : String) (tokens' : TokenBundle) (nRef' : Nat)
    (hA : tokens.access_token.filter nonBlank = some a)
    (hAcct : extractAccountId env.b64 env.parse tokens.id_token = .ok acct)
    (h401 : (env.requests nReq a).status = 401)
    (hRef : doRefresh env tokens nRef = (.ok tokens', nRef')) :
    sessionBody env false tokens nReq nRef k = k tokens' (nReq + 1) nRef' := by
  unfold sessionBody
  rw [hA, hAcct]
  simp [h401, hRef]

theorem sessionBody_401_rejected (env : SessionEnv) (tokens : TokenBundle) (nReq nRef : Nat)
    (k : TokenBundle → Nat → Nat → Except ErrorKind String × Nat × Nat)
    (a acct : String)
    (hA : tokens.access_token.filter nonBlank = some a)
    (hAcct : extractAccountId env.b64 env.parse tokens.id_token = .ok acct)
    (h401 : (env.requests nReq a).status = 401) :
    sessionBody env true tokens nReq nRef k = (.error .refreshRejected, nReq + 1, nRef) := by
  unfold sessionBody
  rw [hA, hAcct]
  simp [h401]

theorem sessionBody_success (env : SessionEnv) (refreshed : Bool) (tokens : TokenBundle)
    (nReq nRef : Nat)
    (k : TokenBundle → Nat → Nat → Except ErrorKind String × Nat × Nat)
    (a acct text : String)
    (hA : tokens.access_token.filter nonBlank = some a)
    (hAcct : extractAccountId env.b64 env.parse tokens.id_token = .ok acct)
    (hSucc : isSuccess (env.requests nReq a).status = true)
    (hDecode : decodeStream env.parse (env.requests nReq a).body = .ok text) :
    sessionBody env refreshed tokens nReq nRef k = (.ok text, nReq + 1, nRef) := by
  have h401 : ¬(env.requests nReq a).status = 401 := by
    intro h
    rw [h] at hSucc
    exact absurd hSucc (by decide)
  unfold sessionBody
  rw [hA, hAcct]
  simp [h401, hSucc, hDecode]

theorem sessionBody_true_counts (env : SessionEnv) (tokens : TokenBundle) (nReq nRef : Nat)
    (k : TokenBundle → Nat → Nat → Except ErrorKind String × Nat × Nat) :
    (sessionBody env true tokens nReq nRef k).2.1 ≤ nReq + 1 ∧
    (sessionBody env true tokens nReq nRef k).2.2 = nRef := by
  unfold sessionBody
  cases h1 : tokens.access_token.filter nonBlank with
  | none => simp
  | some accessToken =>
    cases h2 : extractAccountId env.b64 env.parse tokens.id_token with
    | error e => simp
    | ok acct =>
      simp only
      split
      · simp
      · split
        · simp
        · cases decodeStream env.parse (env.requests nReq accessToken).body with
          | error e => simp
          | ok text => simp

/-- Over a whole invocation: at most two backend requests and at most one
refresh-endpoint call, whatever the environment does. -/
theorem runSession_counts (env : SessionEnv) (tokens : TokenBundle) :
    (runSession env tokens).2.1 ≤ 2 ∧ (runSession env tokens).2.2 ≤ 1 := by
  unfold runSession
  cases hA : tokens.access_token.filter nonBlank with
  | none =>
    rw [sessionBody_noAccess env tokens 0 0 _ hA]
    have hcnt := doRefresh_counts env tokens 0
    cases hR : doRefresh env tokens 0 with
    | mk res nRef' =>
      rw [hR] at hcnt
      simp at hcnt
      cases res with
      | error e => simpa using hcnt
      | ok t' =>
        have := sessionBody_true_counts env t' 0 nRef' haltRun
        simp only
        omega
  | some a =>
    rw [sessionBody_false_access env tokens 0 0 _ a hA]
    cases hAcct : extractAccountId env.b64 env.parse tokens.id_token with
    | error e => simp
    | ok acct =>
      simp only
      split
      · have hcnt := doRefresh_counts env tokens 0
        cases hR : doRefresh env tokens 0 with
        | mk res nRef' =>
          rw [hR] at hcnt
          simp at hcnt
          cases res with
          | error e => simpa using hcnt
          | ok t' =>
            have := sessionBody_true_counts env t' 1 nRef' haltRun
            simp only [Nat.zero_add]
            omega
      · split
        · simp
        · cases decodeStream env.parse (env.requests 0 a).body with
          | error e => simp
          | ok text => simp

theorem exceptOkBind {ε α β : Type} (a : α) (f : α → Except ε β) :
    (Except.ok a >>= f) = f a := rfl

theorem exceptErrorBind {ε α β : Type} (e : ε) (f : α → Except ε β) :
    ((Except.error e : Except ε α) >>= f) = Except.error e := rfl

/-! ## Claims -/

/-- C5: for every old `TokenBundle` and every successful refresh response,
the merged bundle's `id_token` is the response's `id_token`, and
`access_token`/`refresh_token` equal the response's values when present,
falling back to the old bundle's values otherwise; in particular merging
`{id:"a", access:"x", refresh:"r"}` with a response `{id:"b"}` yields
`{id:"b", access:"x", refresh:"r"}`. -/
theorem c5_refresh_merge :
    (∀ old updated, (applyRefresh old updated).id_token = updated.id_token)
    ∧ (∀ old updated a, updated.access_token = some a →
        (applyRefresh old updated).access_token = some a)
    ∧ (∀ old updated, updated.access_token = none →
        (applyRefresh old updated).access_token = old.access_token)
    ∧ (∀ old updated r, updated.refresh_token = some r →
        (applyRefresh old updated).refresh_token = some r)
    ∧ (∀ old updated, updated.refresh_token = none →
        (applyRefresh old updated).refresh_token = old.refresh_token)
    ∧ applyRefresh ⟨"a", some "x", some "r"⟩ ⟨"b", none, none⟩ = ⟨"b", some "x", some "r"⟩ := by
  refine ⟨fun old updated => rfl, fun old updated a h => ?_, fun old updated h => ?_,
    fun old updated r h => ?_, fun old updated h => ?_, rfl⟩ <;>
    simp [applyRefresh, h, Option.or]

theorem c5_witness :
    (applyRefresh ⟨"a", some "x", some "r"⟩ ⟨"b", some "y", none⟩).access_token = some "y" :=
  c5_refresh_merge.2.1 ⟨"a", some "x", some "r"⟩ ⟨"b", some "y", none⟩ "y" rfl

/-- C7: for every ApiKey-credential invocation, a 401 response from the
direct backend is immediately terminal as Unauthorized, after exactly one
backend request and zero refresh-endpoint calls. -/
theorem c7_apikey_unauthorized_terminal (env : SessionEnv) (apiKey : String)
    (h : (env.requests 0 apiKey).status = 401) :
    runApiKey env apiKey = (.error .unauthorized, 1, 0) := by
  unfold runApiKey
  simp [h]

theorem c7_witness : runApiKey cEnv "key0" = (.error .unauthorized, 1, 0) :=
  c7_apikey_unauthorized_terminal cEnv "key0" rfl

/-- C9 counterexample: a bundle whose `access_token` is the empty string and
whose `refresh_token` is absent — i.e. no non-empty token at all — is still
routed to the session path, because the selection only tests `is_some()`.
The claim says such a bundle is rejected at credential selection. -/
theorem c9_counterexample :
    selectCredential
        { openai_api_key := none
          tokens := some { id_token := "t", access_token := some "", refresh_token := none } }
      = .ok (.chatGpt { id_token := "t", access_token := some "", refresh_token := none }) := rfl

/-- C9 amended: with no usable API key and a bundle present, the session
path is chosen iff at least one of `access_token`/`refresh_token` is
PRESENT (`is_some`), regardless of emptiness; only a bundle with both
fields absent is rejected. -/
theorem c9_amended (auth : AuthJson) (tokens : TokenBundle)
    (hKey : auth.openai_api_key.filter nonBlank = none)
    (hTok : auth.tokens = some tokens) :
    (selectCredential auth = .ok (.chatGpt tokens) ↔
      (tokens.access_token.isSome || tokens.refresh_token.isSome) = true)
    ∧ (tokens.access_token = none → tokens.refresh_token = none →
        selectCredential auth = .error .noSessionTokens) := by
  unfold selectCredential
  rw [hKey, hTok]
  dsimp only
  constructor
  · constructor
    · intro h
      by_cases hp : (tokens.access_token.isSome || tokens.refresh_token.isSome) = true
      · exact hp
      · rw [if_neg hp] at h
        cases h
    · intro hp
      rw [if_pos hp]
  · intro ha hr
    rw [if_neg (by simp [ha, hr])]

theorem c9_witness :
    selectCredential
        { openai_api_key := none
          tokens := some { id_token := "t2", access_token := none, refresh_token := some "" } }
      = .ok (.chatGpt { id_token := "t2", access_token := none, refresh_token := some "" }) :=
  (c9_amended
    { openai_api_key := none
      tokens := some { id_token := "t2", access_token := none, refresh_token := some "" } }
    { id_token := "t2", access_token := none, refresh_token := some "" }
    rfl rfl).1.mpr (by decide)

/-- C3 counterexample: `"a.b.c.d"` splits into FOUR dot-separated segments,
yet the shape check succeeds (on the first three); the claim requires it to
fail with `MalformedToken` for any count other than exactly three. -/
theorem c3_counterexample :
    tokenShape "a.b.c.d" = some ("a", "b", "c") ∧ (rsSplit "a.b.c.d" ".").length ≠ 3 := by
  exact ⟨rfl, by decide⟩

/-- C3 amended: the shape check succeeds iff splitting on `.` yields AT
LEAST three segments whose first three are non-empty (later segments are
ignored, not rejected); when it fails, the codec stops with
`MalformedToken` before any decoding: the result does not depend on the
base64 or JSON decoders. -/
theorem c3_amended (s : String) :
    ((tokenShape s).isSome = true ↔
      ∃ h p sg rest, rsSplit s "." = h :: p :: sg :: rest ∧ h ≠ "" ∧ p ≠ "" ∧ sg ≠ "")
    ∧ (∀ b64 parse, tokenShape s = none →
        extractAccountId b64 parse s = .error .malformedToken)
    ∧ (∀ b64 b64' parse parse', tokenShape s = none →
        extractAccountId b64 parse s = extractAccountId b64' parse' s) := by
  refine ⟨?_, fun b64 parse h => ?_, fun b64 b64' parse parse' h => ?_⟩
  · unfold tokenShape
    cases hsp : rsSplit s "." with
    | nil => simp
    | cons h1 rest1 =>
      cases rest1 with
      | nil => simp
      | cons p1 rest2 =>
        cases rest2 with
        | nil => simp
        | cons sg1 rest3 =>
          dsimp only
          by_cases hcond : h1 ≠ "" ∧ p1 ≠ "" ∧ sg1 ≠ ""
          · rw [if_pos hcond]
            simp only [Option.isSome_some, true_iff]
            exact ⟨h1, p1, sg1, rest3, rfl, hcond.1, hcond.2.1, hcond.2.2⟩
          · rw [if_neg hcond]
            simp only [Option.isSome_none, Bool.false_eq_true, false_iff]
            rintro ⟨h, p, sg, rest, heq, hh, hp, hsg⟩
            cases heq
            exact hcond ⟨hh, hp, hsg⟩
  · unfold extractAccountId
    rw [h]
  · unfold extractAccountId
    rw [h]

theorem c3_witness :
    extractAccountId cB64 cParse "ab" = .error .malformedToken :=
  (c3_amended "ab").2.1 cB64 cParse rfl

/-- C2 counterexample: a `response.completed` event that arrives BEFORE the
deltas is consulted (the accumulator is empty at that moment), seeds the
accumulator with its extracted text, and the deltas are appended after it:
the result is `"ignoredHello"`, not `"Hello"` as the claim requires for any
position of the completed event. -/
theorem c2_counterexample :
    decodeStream cParse "data: C0\n\ndata: D1\n\ndata: D2" = .ok "ignoredHello" ∧
    decodeStream cParse "data: C0\n\ndata: D1\n\ndata: D2" ≠ .ok "Hello" := by
  refine ⟨rfl, ?_⟩
  intro h
  rw [show decodeStream cParse "data: C0\n\ndata: D1\n\ndata: D2" = .ok "ignoredHello" from rfl]
    at h
  exact absurd (Except.ok.inj h) (by decide)

/-- C2 amended: deltas are appended to the accumulator in arrival order, and
a `response.completed` event is consulted only when the accumulator is empty
AT THE MOMENT it is processed.  When the completed event follows the deltas
(the spec's example) the result is the delta concatenation; a completed
event is ignored whenever the accumulator is already non-empty; and a
completed event processed while the accumulator is still empty seeds it
with the extraction of its embedded reply (after which later deltas are
appended, as the counterexample shows concretely). -/
theorem c2_amended :
    decodeStream cParse "data: D1\n\ndata: D2\n\ndata: C0" = .ok "Hello"
    ∧ (∀ parse collected d j s, parse d = some j →
        (j.getField "type").bind Json.asStr = some "response.output_text.delta" →
        (j.getField "delta").bind Json.asStr = some s →
        ¬d = "" → ¬d = "[DONE]" →
        processPayload parse collected d = .ok (collected ++ s))
    ∧ (∀ parse collected d j, parse d = some j →
        (j.getField "type").bind Json.asStr = some "response.completed" →
        ¬collected = "" →
        processPayload parse collected d = .ok collected)
    ∧ (∀ parse d j respVal reply text, parse d = some j →
        (j.getField "type").bind Json.asStr = some "response.completed" →
        ¬d = "" → ¬d = "[DONE]" →
        j.getField "response" = some respVal →
        deserReply respVal = some reply →
        extractOutputText reply = some text →
        processPayload parse "" d = .ok text) := by
  refine ⟨rfl, ?_, ?_, ?_⟩
  · intro parse collected d j s hparse htype hdelta hd1 hd2
    unfold processPayload
    rw [if_neg (by simp [hd1, hd2]), hparse]
    dsimp only
    rw [htype]
    simp [hdelta]
  · intro parse collected d j hparse htype hcol
    unfold processPayload
    by_cases hskip : d = "" ∨ d = "[DONE]"
    · rw [if_pos hskip]
    · rw [if_neg hskip, hparse]
      dsimp only
      rw [htype]
      simp [hcol]
  · intro parse d j respVal reply text hparse htype hd1 hd2 hresp hdeser hext
    unfold processPayload
    rw [if_neg (by simp [hd1, hd2]), hparse]
    dsimp only
    rw [htype]
    simp [hresp, hdeser, hext]

theorem c2_witness : processPayload cParse "x" "D1" = .ok "xHel" :=
  c2_amended.2.1 cParse "x" "D1" (deltaEvent "Hel") "Hel" rfl rfl rfl (by decide) (by decide)

/-- C4 counterexample: a `data:` line with a malformed JSON payload is NOT
skipped: the `?` at main.rs:389 aborts the whole decode, even though a
well-formed delta was already accumulated. -/
theorem c4_counterexample :
    decodeStream cParse "data: D1\n\ndata: BAD" = .error .streamParseError ∧
    decodeStream cParse "data: D1\n\ndata: BAD" ≠ .ok "Hel" := by
  refine ⟨rfl, ?_⟩
  intro h
  rw [show decodeStream cParse "data: D1\n\ndata: BAD" = .error .streamParseError from rfl] at h
  exact Except.noConfusion h

/-- C4 amended: a non-empty, non-`[DONE]` data payload that fails JSON
parsing aborts the whole stream decode with a parse error, whatever events
precede or follow it; only empty payloads and the `[DONE]` sentinel are
skipped at this stage. -/
theorem c4_malformed_aborts :
    (∀ parse body pre d post c, dataPayloads body = pre ++ d :: post →
      pre.foldlM (processPayload parse) "" = Except.ok c →
      ¬d = "" → ¬d = "[DONE]" → parse d = none →
      decodeStream parse body = .error .streamParseError)
    ∧ (∀ parse collected, processPayload parse collected "" = .ok collected)
    ∧ (∀ parse collected, processPayload parse collected "[DONE]" = .ok collected) := by
  refine ⟨?_, fun parse collected => rfl, fun parse collected => rfl⟩
  intro parse body pre d post c hsplit hpre hd1 hd2 hparse
  have hstep : processPayload parse c d = .error .streamParseError := by
    unfold processPayload
    rw [if_neg (by simp [hd1, hd2]), hparse]
  unfold decodeStream
  rw [hsplit, List.foldlM_append, hpre, exceptOkBind, List.foldlM_cons, hstep, exceptErrorBind]

theorem c4_witness : decodeStream cParse "data: BAD\n\ndata: D2" = .error .streamParseError :=
  c4_malformed_aborts.1 cParse "data: BAD\n\ndata: D2" [] "BAD" ["D2"] "" rfl rfl
    (by decide) (by decide) rfl

/-- C8: the stream decoder never returns an empty string as a success; when
the scan over all payloads completes with an empty accumulator the result is
`EmptyStreamResult` — in particular for the empty body and for a body
containing only the `[DONE]` sentinel, whatever the JSON parser does. -/
theorem c8_empty_stream :
    (∀ parse body s, decodeStream parse body = .ok s → ¬s = "")
    ∧ (∀ parse body, (dataPayloads body).foldlM (processPayload parse) "" = Except.ok "" →
        decodeStream parse body = .error .emptyStreamResult)
    ∧ (∀ parse, decodeStream parse "" = .error .emptyStreamResult)
    ∧ (∀ parse, decodeStream parse "data: [DONE]" = .error .emptyStreamResult) := by
  refine ⟨?_, ?_, fun parse => rfl, fun parse => rfl⟩
  · intro parse body s h
    unfold decodeStream at h
    cases hf : (dataPayloads body).foldlM (processPayload parse) "" with
    | error e =>
      rw [hf] at h
      exact Except.noConfusion h
    | ok collected =>
      rw [hf] at h
      dsimp only at h
      by_cases hc : collected = ""
      · rw [if_pos hc] at h
        exact Except.noConfusion h
      · rw [if_neg hc] at h
        rw [← Except.ok.inj h]
        exact hc
  · intro parse body hfold
    unfold decodeStream
    rw [hfold]
    exact rfl

theorem c8_witness :
    decodeStream cParse "data: D1" = .ok "Hel" ∧ ¬("Hel" : String) = "" :=
  ⟨rfl, c8_empty_stream.1 cParse "data: D1" "Hel" rfl⟩

theorem findSome?_first_some {α β : Type} (f : α → Option β) (pre : List α) (a : α)
    (post : List α) (b : β) (hpre : ∀ q ∈ pre, f q = none) (ha : f a = some b) :
    (pre ++ a :: post).findSome? f = some b := by
  rw [List.findSome?_append, List.findSome?_eq_none_iff.mpr hpre, List.findSome?_cons, ha]
  exact rfl

/-- C6: the Response Decoder returns the text of the first content piece in
document order (messages in order, pieces within each message in order)
whose kind is `output_text` and whose text is present, ignoring later
matches; it returns nothing exactly when no such piece exists.  Both decode
sites (the API-key reply and the stream decoder's completed fallback) call
this same `extractOutputText`. -/
theorem c6_first_output_text :
    (∀ reply pre piece post t,
      reply.output.flatMap (fun message => message.content) = pre ++ piece :: post →
      (∀ q ∈ pre, q.kind = "output_text" → q.text = none) →
      piece.kind = "output_text" → piece.text = some t →
      extractOutputText reply = some t)
    ∧ (∀ reply, extractOutputText reply = none ↔
        ∀ q ∈ reply.output.flatMap (fun message => message.content),
          q.kind = "output_text" → q.text = none) := by
  constructor
  · intro reply pre piece post t hflat hpre hkind htext
    unfold extractOutputText
    rw [hflat]
    apply findSome?_first_some
    · intro q hq
      by_cases h : q.kind = "output_text"
      · rw [if_pos h]
        exact hpre q hq h
      · rw [if_neg h]
    · rw [if_pos hkind]
      exact htext
  · intro reply
    unfold extractOutputText
    rw [List.findSome?_eq_none_iff]
    constructor
    · intro h q hq hkind
      have hv := h q hq
      rw [if_pos hkind] at hv
      exact hv
    · intro h q hq
      by_cases hk : q.kind = "output_text"
      · rw [if_pos hk]
        exact h q hq hk
      · rw [if_neg hk]

theorem c6_witness : extractOutputText cReply = some "first" :=
  c6_first_output_text.1 cReply [{ kind := "reasoning", text := some "skip" }]
    { kind := "output_text", text := some "first" }
    [{ kind := "output_text", text := some "second" }] "first" rfl (by decide) rfl rfl

/-- C1: on a session invocation whose bundle has a usable access token, a
401 on the first request triggers exactly one refresh and a single second
request with the refreshed bundle's access token: if the second attempt
succeeds the decoded text is returned (two requests, one refresh); a second
401 is terminal with the refresh-rejected error (two requests, one refresh);
and over ANY environment at most two requests and one refresh-endpoint call
ever happen in one invocation. -/
theorem c1_retry_policy (env : SessionEnv) (tokens tokens' : TokenBundle)
    (a acct a' acct' text : String)
    (hA : tokens.access_token.filter nonBlank = some a)
    (hAcct : extractAccountId env.b64 env.parse tokens.id_token = .ok acct)
    (h401 : (env.requests 0 a).status = 401)
    (hRef : doRefresh env tokens 0 = (.ok tokens', 1))
    (hA' : tokens'.access_token.filter nonBlank = some a')
    (hAcct' : extractAccountId env.b64 env.parse tokens'.id_token = .ok acct') :
    (isSuccess (env.requests 1 a').status = true →
      decodeStream env.parse (env.requests 1 a').body = .ok text →
      runSession env tokens = (.ok text, 2, 1))
    ∧ ((env.requests 1 a').status = 401 →
      runSession env tokens = (.error .refreshRejected, 2, 1))
    ∧ (∀ env₂ tokens₂,
        (runSession env₂ tokens₂).2.1 ≤ 2 ∧ (runSession env₂ tokens₂).2.2 ≤ 1) := by
  have hfirst : runSession env tokens = sessionBody env true tokens' 1 1 haltRun := by
    unfold runSession
    exact sessionBody_401_refresh env tokens 0 0 _ a acct tokens' 1 hA hAcct h401 hRef
  refine ⟨fun hSucc hDecode => ?_, fun h401b => ?_,
    fun env₂ tokens₂ => runSession_counts env₂ tokens₂⟩
  · rw [hfirst]
    exact sessionBody_success env true tokens' 1 1 haltRun a' acct' text hA' hAcct' hSucc hDecode
  · rw [hfirst]
    exact sessionBody_401_rejected env tokens' 1 1 haltRun a' acct' hA' hAcct' h401b

theorem c1_witness : runSession cEnv cTokens = (.ok "Hello", 2, 1) :=
  (c1_retry_policy cEnv cTokens ⟨"h.p.s", some "tok2", some "r1"⟩ "tok1" "acct-1" "tok2"
    "acct-1" "Hello" rfl rfl rfl rfl rfl rfl).1 rfl rfl

/-- C10: a session invocation whose bundle has no usable access token
refreshes before any backend request: with no usable refresh token either,
it fails with the no-refresh-token error after zero requests and zero
refresh calls; if the refresh succeeds but still yields no usable access
token, it fails with the no-access-token error after zero requests and one
refresh call; and if the refreshed bundle works but the (single) request is
rejected with 401, the invocation is terminal with the refresh-rejected
error after one request and one refresh call — no second refresh. -/
theorem c10_preemptive_refresh (env : SessionEnv) (tokens tokens' : TokenBundle)
    (a' acct' : String)
    (hA : tokens.access_token.filter nonBlank = none) :
    (tokens.refresh_token.filter nonBlank = none →
      runSession env tokens = (.error .noRefreshToken, 0, 0))
    ∧ (doRefresh env tokens 0 = (.ok tokens', 1) →
      tokens'.access_token.filter nonBlank = none →
      runSession env tokens = (.error .noAccessToken, 0, 1))
    ∧ (doRefresh env tokens 0 = (.ok tokens', 1) →
      tokens'.access_token.filter nonBlank = some a' →
      extractAccountId env.b64 env.parse tokens'.id_token = .ok acct' →
      (env.requests 0 a').status = 401 →
      runSession env tokens = (.error .refreshRejected, 1, 1)) := by
  refine ⟨fun hR => ?_, fun hRef hA' => ?_, fun hRef hA' hAcct' h401 => ?_⟩
  · unfold runSession
    rw [sessionBody_noAccess env tokens 0 0 _ hA, doRefresh_noToken env tokens 0 hR]
  · unfold runSession
    rw [sessionBody_noAccess env tokens 0 0 _ hA, hRef]
    exact sessionBody_true_noAccess env tokens' 0 1 haltRun hA'
  · unfold runSession
    rw [sessionBody_noAccess env tokens 0 0 _ hA, hRef]
    exact sessionBody_401_rejected env tokens' 0 1 haltRun a' acct' hA' hAcct' h401

theorem c10_witness : runSession cEnv cBareTokens = (.error .noRefreshToken, 0, 0) :=
  (c10_preemptive_refresh cEnv cBareTokens cBareTokens "" "" rfl).1 rfl

end SimpleAuth
